import Mathlib

/-!
Verification of the remote-temperature client/server system.

Shallow embedding of:
- `remote-temperature-client/remotetemperature/client/__init__.py`
  (`RemoteTemperatureClient._check_temperature_sanity`,
   `RemoteTemperatureClient._read_and_record_temperature`,
   `RemoteTemperatureClient.run_forever`, `RemoteTemperatureClient.quit`)
- `remote-temperature-server/remotetemperature/server/__init__.py`
  (`DBClient.__init__`, `DBClient.write`, `TemperatureRecorder.record_temperature`)

Temperatures, bounds and timestamps are Python floats in the source; the source
only ever compares them (`<`, `>`), passes them through, and stores them — it does
no arithmetic on them — so they are modelled as `ℚ`, on which those comparisons are
exact and order-faithful.

Environmental effects (the sensor driver, the network, sqlite) are modelled as
explicit outcome parameters: each call that can fail takes the outcome the
environment produced, and the embedding computes what the Python control flow
does with it.
-/

deriving instance DecidableEq for Except

namespace RemoteTemperature

/-- Substring relation: `sub` occurs as a contiguous substring of `msg` (stated on the underlying
character lists). Used to express "the error message includes ...". -/
def includesText (msg sub : String) : Prop :=
  sub.data <:+: msg.data

instance (msg sub : String) : Decidable (includesText msg sub) :=
  List.decidableInfix sub.data msg.data

/-- The message of the `SanityCheckError` raised when the low bound is violated.
Mirrors the f-string in `_check_temperature_sanity` (source lines 101-107),
including the source's typo "Temerature" and the missing space in "C)for". -/
def lowFailMsg (sensor_id : String) (t low : ℚ) : String :=
  "Temerature reading (" ++ toString t ++ "C)for sensor " ++ sensor_id
    ++ " failed sanity check; temperature is below low threshold of "
    ++ toString low ++ "C"

/-- The message of the `SanityCheckError` raised when the high bound is violated.
Mirrors the f-string in `_check_temperature_sanity` (source lines 113-119). -/
def highFailMsg (sensor_id : String) (t high : ℚ) : String :=
  "Temerature reading (" ++ toString t ++ "C)for sensor " ++ sensor_id
    ++ " failed sanity check; temperature is above high threshold of "
    ++ toString high ++ "C"

/-- The second `if` of `_check_temperature_sanity`: raise `SanityCheckError` when
`self._sanity_check_high is not None and temperature > self._sanity_check_high`. -/
def checkHigh (high : Option ℚ) (sensor_id : String) (t : ℚ) : Except String Unit :=
  match high with
  | some h => if h < t then Except.error (highFailMsg sensor_id t h) else Except.ok ()
  | none => Except.ok ()

/-- Model of `RemoteTemperatureClient._check_temperature_sanity(sensor_id, temperature)`.
`low`/`high` are `self._sanity_check_low` / `self._sanity_check_high` (each is
`None` or a float). The source raises `SanityCheckError` if `low` is present and
`temperature < low`, then (otherwise) raises if `high` is present and
`temperature > high`, and otherwise falls through returning `None`. Raising is
modelled as `Except.error` carrying the exception's message; the function is
pure, so success (`Except.ok ()`) has no side effect by construction. -/
def check_temperature_sanity (low high : Option ℚ) (sensor_id : String) (t : ℚ) :
    Except String Unit :=
  match low with
  | some l =>
    if t < l then Except.error (lowFailMsg sensor_id t l)
    else checkHigh high sensor_id t
  | none => checkHigh high sensor_id t

theorem checkHigh_some (h : ℚ) (sid : String) (t : ℚ) :
    checkHigh (some h) sid t =
      if h < t then Except.error (highFailMsg sid t h) else Except.ok () := rfl

theorem checkHigh_none (sid : String) (t : ℚ) :
    checkHigh none sid t = Except.ok () := rfl

theorem check_sanity_some (l : ℚ) (high : Option ℚ) (sid : String) (t : ℚ) :
    check_temperature_sanity (some l) high sid t =
      if t < l then Except.error (lowFailMsg sid t l) else checkHigh high sid t := rfl

theorem check_sanity_none (high : Option ℚ) (sid : String) (t : ℚ) :
    check_temperature_sanity none high sid t = checkHigh high sid t := rfl

/-- The reading `t` is within the configured sanity bounds: a missing bound
disables that side of the check. -/
def saneReading (low high : Option ℚ) (t : ℚ) : Prop :=
  (∀ l, low = some l → l ≤ t) ∧ (∀ h, high = some h → t ≤ h)

instance (low high : Option ℚ) (t : ℚ) : Decidable (saneReading low high t) :=
  decidable_of_iff
    (((low.all fun l => decide (l ≤ t)) && (high.all fun h => decide (t ≤ h))) = true)
    (by cases low <;> cases high <;> simp [saneReading, Option.all])

theorem lowFailMsg_includes_sid (sensor_id : String) (t l : ℚ) :
    includesText (lowFailMsg sensor_id t l) sensor_id := by
  refine ⟨("Temerature reading (" ++ toString t ++ "C)for sensor ").data,
    (" failed sanity check; temperature is below low threshold of "
      ++ toString l ++ "C").data, ?_⟩
  simp [lowFailMsg, String.data_append]

theorem lowFailMsg_includes_t (sensor_id : String) (t l : ℚ) :
    includesText (lowFailMsg sensor_id t l) (toString t) := by
  refine ⟨("Temerature reading (").data,
    ("C)for sensor " ++ sensor_id
      ++ " failed sanity check; temperature is below low threshold of "
      ++ toString l ++ "C").data, ?_⟩
  simp [lowFailMsg, String.data_append]

theorem lowFailMsg_includes_bound (sensor_id : String) (t l : ℚ) :
    includesText (lowFailMsg sensor_id t l) (toString l) := by
  refine ⟨("Temerature reading (" ++ toString t ++ "C)for sensor " ++ sensor_id
      ++ " failed sanity check; temperature is below low threshold of ").data,
    ("C").data, ?_⟩
  simp [lowFailMsg, String.data_append]

theorem highFailMsg_includes_sid (sensor_id : String) (t h : ℚ) :
    includesText (highFailMsg sensor_id t h) sensor_id := by
  refine ⟨("Temerature reading (" ++ toString t ++ "C)for sensor ").data,
    (" failed sanity check; temperature is above high threshold of "
      ++ toString h ++ "C").data, ?_⟩
  simp [highFailMsg, String.data_append]

theorem highFailMsg_includes_t (sensor_id : String) (t h : ℚ) :
    includesText (highFailMsg sensor_id t h) (toString t) := by
  refine ⟨("Temerature reading (").data,
    ("C)for sensor " ++ sensor_id
      ++ " failed sanity check; temperature is above high threshold of "
      ++ toString h ++ "C").data, ?_⟩
  simp [highFailMsg, String.data_append]

theorem highFailMsg_includes_bound (sensor_id : String) (t h : ℚ) :
    includesText (highFailMsg sensor_id t h) (toString h) := by
  refine ⟨("Temerature reading (" ++ toString t ++ "C)for sensor " ++ sensor_id
      ++ " failed sanity check; temperature is above high threshold of ").data,
    ("C").data, ?_⟩
  simp [highFailMsg, String.data_append]

/-- The sanity check succeeds exactly on in-bounds readings. -/
theorem check_sanity_ok_iff (low high : Option ℚ) (sid : String) (t : ℚ) :
    check_temperature_sanity low high sid t = Except.ok () ↔ saneReading low high t := by
  have hhigh : ∀ hi : Option ℚ, (checkHigh hi sid t = Except.ok () ↔
      ∀ h, hi = some h → t ≤ h) := by
    intro hi
    cases hi with
    | none => simp [checkHigh_none]
    | some h =>
      rw [checkHigh_some]
      by_cases hh : h < t
      · rw [if_pos hh]
        constructor
        · intro hcontr; cases hcontr
        · intro hall
          exact absurd (hall h rfl) (not_le.mpr hh)
      · rw [if_neg hh]
        constructor
        · intro _ h' hh'
          cases hh'
          exact le_of_not_lt hh
        · intro _; rfl
  unfold saneReading
  cases low with
  | none =>
    rw [check_sanity_none, hhigh high]
    constructor
    · intro hh
      refine ⟨?_, hh⟩
      intro l hl
      cases hl
    · intro hh; exact hh.2
  | some l =>
    rw [check_sanity_some]
    by_cases hl : t < l
    · rw [if_pos hl]
      constructor
      · intro hcontr; cases hcontr
      · rintro ⟨h1, -⟩
        exact absurd (h1 l rfl) (not_le.mpr hl)
    · rw [if_neg hl, hhigh high]
      constructor
      · intro hh
        refine ⟨?_, hh⟩
        intro l' hl'
        cases hl'
        exact le_of_not_lt hl
      · intro hh; exact hh.2

/-- C1: for every temperature `t` and optional bounds, `_check_temperature_sanity`
succeeds iff (low absent or `t ≥ low`) and (high absent or `t ≤ high`); when it
fails, the `SanityCheckError` message includes the sensor identity, the measured
value, and the violated bound. Success is `Except.ok ()` of a pure function, so it
has no side effect. -/
theorem check_temperature_sanity_correct (low high : Option ℚ) (sid : String) (t : ℚ) :
    (check_temperature_sanity low high sid t = Except.ok () ↔ saneReading low high t) ∧
    (∀ msg, check_temperature_sanity low high sid t = Except.error msg →
      includesText msg sid ∧ includesText msg (toString t) ∧
      ((∃ l, low = some l ∧ t < l ∧ msg = lowFailMsg sid t l ∧
          includesText msg (toString l)) ∨
       (∃ h, high = some h ∧ h < t ∧ msg = highFailMsg sid t h ∧
          includesText msg (toString h)))) := by
  refine ⟨check_sanity_ok_iff low high sid t, ?_⟩
  have hhigh : ∀ msg, checkHigh high sid t = Except.error msg →
      ∃ h, high = some h ∧ h < t ∧ msg = highFailMsg sid t h ∧
        includesText msg (toString h) := by
    intro msg hmsg
    cases high with
    | none => rw [checkHigh_none] at hmsg; cases hmsg
    | some h =>
      rw [checkHigh_some] at hmsg
      by_cases hh : h < t
      · rw [if_pos hh] at hmsg
        cases hmsg
        exact ⟨h, rfl, hh, rfl, highFailMsg_includes_bound sid t h⟩
      · rw [if_neg hh] at hmsg; cases hmsg
  intro msg hmsg
  cases low with
  | some l =>
    rw [check_sanity_some] at hmsg
    by_cases hl : t < l
    · rw [if_pos hl] at hmsg
      cases hmsg
      exact ⟨lowFailMsg_includes_sid sid t l, lowFailMsg_includes_t sid t l,
        Or.inl ⟨l, rfl, hl, rfl, lowFailMsg_includes_bound sid t l⟩⟩
    · rw [if_neg hl] at hmsg
      obtain ⟨h, hhi, hht, hmeq, hinc⟩ := hhigh msg hmsg
      subst hmeq
      exact ⟨highFailMsg_includes_sid sid t h, highFailMsg_includes_t sid t h,
        Or.inr ⟨h, hhi, hht, rfl, hinc⟩⟩
  | none =>
    rw [check_sanity_none] at hmsg
    obtain ⟨h, hhi, hht, hmeq, hinc⟩ := hhigh msg hmsg
    subst hmeq
    exact ⟨highFailMsg_includes_sid sid t h, highFailMsg_includes_t sid t h,
      Or.inr ⟨h, hhi, hht, rfl, hinc⟩⟩

/-- Witness for C1 at a concrete input: with `low = 0`, `high = 10`, reading `-5`
from sensor "s1" the check fails and the message includes the sensor id, the
value and the low bound. -/
theorem check_temperature_sanity_correct_witness :
    check_temperature_sanity (some 0) (some 10) "s1" (-5) =
      Except.error (lowFailMsg "s1" (-5) 0) ∧
    includesText (lowFailMsg "s1" (-5) 0) "s1" ∧
    includesText (lowFailMsg "s1" (-5) 0) (toString (-5 : ℚ)) := by
  have h := (check_temperature_sanity_correct (some 0) (some 10) "s1" (-5)).2
    (lowFailMsg "s1" (-5) 0) (by decide)
  exact ⟨by decide, h.1, h.2.1⟩

/-- C10: nothing validates `low ≤ high`. With both bounds present and
`high < low`, every reading fails the sanity check, and a reading below `low` is
reported against the low bound (the low bound is checked first). -/
theorem inverted_bounds_reject_everything (l h : ℚ) (sid : String) (t : ℚ)
    (hinv : h < l) :
    check_temperature_sanity (some l) (some h) sid t ≠ Except.ok () ∧
    (t < l → check_temperature_sanity (some l) (some h) sid t =
      Except.error (lowFailMsg sid t l)) := by
  constructor
  · intro hok
    rcases (check_sanity_ok_iff (some l) (some h) sid t).mp hok with ⟨h1, h2⟩
    have := (h1 l rfl).trans (h2 h rfl)
    exact absurd this (not_le.mpr hinv)
  · intro hlt
    rw [check_sanity_some, if_pos hlt]

/-- Witness for C10 at a concrete input: bounds `low = 10`, `high = 0`
(inverted); the reading `3` is rejected, and the reading `-1 < low` is reported
against the low bound. -/
theorem inverted_bounds_reject_everything_witness :
    (check_temperature_sanity (some 10) (some 0) "s1" 3 ≠ Except.ok ()) ∧
    check_temperature_sanity (some 10) (some 0) "s1" (-1) =
      Except.error (lowFailMsg "s1" (-1) 10) := by
  exact ⟨(inverted_bounds_reject_everything 10 0 "s1" 3 (by norm_num)).1,
    (inverted_bounds_reject_everything 10 0 "s1" (-1) (by norm_num)).2 (by norm_num)⟩

/-- Outcome of `sensor.get_temperature()`: a float, or a raised
`W1ThermSensorError` with a message. -/
inductive SensorReadOutcome
  | ok (t : ℚ)
  | sensorError (msg : String)
deriving DecidableEq

/-- Outcome of the `self._rpc_proxy.record_temperature(...)` call, as the
environment produces it. `status` is a normal return; the other constructors are
the exception classes a transport-level failure raises in the source's stack:
`xmlrpc.client.Fault`, `xmlrpc.client.ProtocolError`, `ConnectionError`
(whose subclasses include `ConnectionRefusedError`), and
`socket.timeout` / `TimeoutError` — which is a subclass of `OSError` but NOT of
`ConnectionError`, and not of any other class named in the handler's `except`
clauses. -/
inductive RpcOutcome
  | status (code : ℤ)
  | fault (faultCode : ℤ) (faultString : String)
  | protocolError (errcode : ℤ) (errmsg : String)
  | connectionError (msg : String)
  | timeout (msg : String)
deriving DecidableEq

/-- Observable actions of `_read_and_record_temperature`: debug/error log lines
and the RPC transmission of a reading (`transmit sensor ts t` is the
`record_temperature` call with the four fields; `device_id` is fixed per client). -/
inductive ClientEvent
  | logDebug (msg : String)
  | transmit (sensor : String) (ts t : ℚ)
  | logError (msg : String)
deriving DecidableEq

/-- An exception that escapes `_read_and_record_temperature` (no `except` clause
matches it) and therefore propagates out of `run_forever`'s loop. -/
inductive Uncaught
  | timeoutExc (msg : String)
deriving DecidableEq

/-- The tail of `_read_and_record_temperature` once the reading passed the sanity
check: the debug log, the RPC call, and the source's `except` clauses around it.
`Fault`, `ProtocolError` and `ConnectionError` are caught and logged (lines
89-94); a `socket.timeout` / `TimeoutError` matches none of the `except` clauses
(it is an `OSError` but not a `ConnectionError`), so it escapes. -/
def rpcStep (dbg : ClientEvent) (sensor : String) (ts t : ℚ) (rpc : RpcOutcome) :
    List ClientEvent × Option Uncaught :=
  match rpc with
  | RpcOutcome.status code =>
    if code ≠ 0 then
      ([dbg, ClientEvent.transmit sensor ts t,
        ClientEvent.logError
          ("Received error status " ++ toString code ++ " from remote server")], none)
    else ([dbg, ClientEvent.transmit sensor ts t], none)
  | RpcOutcome.fault c m =>
    ([dbg, ClientEvent.transmit sensor ts t,
      ClientEvent.logError ("RPC error (" ++ toString c ++ "): " ++ m)], none)
  | RpcOutcome.protocolError c m =>
    ([dbg, ClientEvent.transmit sensor ts t,
      ClientEvent.logError ("Protocol error (" ++ toString c ++ "): " ++ m)], none)
  | RpcOutcome.connectionError m =>
    ([dbg, ClientEvent.transmit sensor ts t,
      ClientEvent.logError ("Connection error: " ++ m)], none)
  | RpcOutcome.timeout m =>
    ([dbg, ClientEvent.transmit sensor ts t], some (Uncaught.timeoutExc m))

theorem rpcStep_status (dbg : ClientEvent) (sensor : String) (ts t : ℚ) (code : ℤ) :
    rpcStep dbg sensor ts t (RpcOutcome.status code) =
      if code ≠ 0 then
        ([dbg, ClientEvent.transmit sensor ts t,
          ClientEvent.logError
            ("Received error status " ++ toString code ++ " from remote server")], none)
      else ([dbg, ClientEvent.transmit sensor ts t], none) := rfl

/-- The debug log line written just before the RPC call (source lines 71-76). -/
def debugEvent (device sensor : String) (t ts : ℚ) : ClientEvent :=
  ClientEvent.logDebug
    ("Read temperature " ++ toString t ++ "C from sensor " ++ sensor
      ++ " on device " ++ device ++ " at timestamp " ++ toString ts)

/-- Model of `RemoteTemperatureClient._read_and_record_temperature(sensor)` (source lines
65-94). `read` is the sensor's outcome, `ts` the timestamp taken right after the
read, `rpc` the transport's outcome. A `W1ThermSensorError` or `SanityCheckError`
is caught by the first `except` clause and logged; otherwise the reading is
transmitted and the transport outcome handled by `rpcStep`. The result is the
event list plus the exception, if any, that escapes the handler. -/
def read_and_record_temperature (low high : Option ℚ) (device sensor : String)
    (read : SensorReadOutcome) (ts : ℚ) (rpc : RpcOutcome) :
    List ClientEvent × Option Uncaught :=
  match read with
  | SensorReadOutcome.sensorError m =>
    ([ClientEvent.logError ("Failed to read from sensor " ++ sensor ++ ": " ++ m)], none)
  | SensorReadOutcome.ok t =>
    match check_temperature_sanity low high sensor t with
    | Except.error m =>
      ([ClientEvent.logError ("Failed to read from sensor " ++ sensor ++ ": " ++ m)], none)
    | Except.ok _ =>
      rpcStep (debugEvent device sensor t ts) sensor ts t rpc

theorem rr_sensorError (low high : Option ℚ) (d s m : String) (ts : ℚ)
    (rpc : RpcOutcome) :
    read_and_record_temperature low high d s (SensorReadOutcome.sensorError m) ts rpc =
      ([ClientEvent.logError ("Failed to read from sensor " ++ s ++ ": " ++ m)], none) := rfl

theorem rr_ok (low high : Option ℚ) (d s : String) (t ts : ℚ) (rpc : RpcOutcome) :
    read_and_record_temperature low high d s (SensorReadOutcome.ok t) ts rpc =
      match check_temperature_sanity low high s t with
      | Except.error m =>
        ([ClientEvent.logError ("Failed to read from sensor " ++ s ++ ": " ++ m)], none)
      | Except.ok _ => rpcStep (debugEvent d s t ts) s ts t rpc := rfl

/-- Per-sensor environment of one poll cycle: the sensor's id, its read outcome,
the timestamp taken for it, and the transport outcome for its RPC call. -/
structure SensorCycleEnv where
  sensor_id : String
  read : SensorReadOutcome
  ts : ℚ
  rpc : RpcOutcome
deriving DecidableEq

/-- The `for sensor in W1ThermSensor.get_available_sensors():` body of one
iteration of `run_forever` (source lines 41-42): process each sensor with
`_read_and_record_temperature`; an exception that escapes the per-sensor handler
aborts the cycle (there is no try/except in `run_forever`). -/
def pollCycle (low high : Option ℚ) (device : String) :
    List SensorCycleEnv → List ClientEvent × Option Uncaught
  | [] => ([], none)
  | e :: rest =>
    match read_and_record_temperature low high device e.sensor_id e.read e.ts e.rpc with
    | (evs, some exc) => (evs, some exc)
    | (evs, none) =>
      let r := pollCycle low high device rest
      (evs ++ r.1, r.2)

/-- C2 counterexample: a timeout raised by the RPC call is a transport-level
failure that is NOT caught by the per-sensor handler — it escapes
`_read_and_record_temperature` (and hence the poll loop), refuting the claim that
every transport-level failure, timeout included, is caught and treated as a
skipped reading. -/
theorem transport_timeout_escapes_handler :
    (read_and_record_temperature none none "dev" "s1" (SensorReadOutcome.ok 20) 1000
      (RpcOutcome.timeout "timed out")).2 = some (Uncaught.timeoutExc "timed out") := rfl

/-- C2 (amended): a transport-level failure raised as `xmlrpc.client.Fault`,
`xmlrpc.client.ProtocolError` or `ConnectionError` (connection refused included)
is caught by the per-sensor handler and treated as a skipped reading, and the
only exception that can escape the handler is a timeout
(`socket.timeout` / `TimeoutError`); consequently a poll cycle in which no RPC
call raises a timeout completes with no exception escaping the loop. -/
theorem transport_failure_handling (low high : Option ℚ) (d s : String)
    (read : SensorReadOutcome) (ts : ℚ) (rpc : RpcOutcome)
    (xs : List SensorCycleEnv) :
    (∀ c m, rpc = RpcOutcome.fault c m →
      (read_and_record_temperature low high d s read ts rpc).2 = none) ∧
    (∀ c m, rpc = RpcOutcome.protocolError c m →
      (read_and_record_temperature low high d s read ts rpc).2 = none) ∧
    (∀ m, rpc = RpcOutcome.connectionError m →
      (read_and_record_temperature low high d s read ts rpc).2 = none) ∧
    (∀ exc, (read_and_record_temperature low high d s read ts rpc).2 = some exc →
      ∃ m, rpc = RpcOutcome.timeout m ∧ exc = Uncaught.timeoutExc m) ∧
    ((∀ e, e ∈ xs → ∀ m, e.rpc ≠ RpcOutcome.timeout m) →
      (pollCycle low high d xs).2 = none) := by
  have key : ∀ (s' : String) (read' : SensorReadOutcome) (ts' : ℚ) (rpc' : RpcOutcome)
      (exc : Uncaught),
      (read_and_record_temperature low high d s' read' ts' rpc').2 = some exc →
      ∃ m, rpc' = RpcOutcome.timeout m ∧ exc = Uncaught.timeoutExc m := by
    intro s' read' ts' rpc' exc hexc
    cases read' with
    | sensorError m =>
      exact Option.noConfusion (show (none : Option Uncaught) = some exc from hexc)
    | ok t' =>
      rw [rr_ok] at hexc
      cases hcheck : check_temperature_sanity low high s' t' with
      | error m =>
        rw [hcheck] at hexc
        exact Option.noConfusion (show (none : Option Uncaught) = some exc from hexc)
      | ok u =>
        cases u
        rw [hcheck] at hexc
        have hexc2 : (rpcStep (debugEvent d s' t' ts') s' ts' t' rpc').2 = some exc := hexc
        cases rpc' with
        | status code =>
          rw [rpcStep_status] at hexc2
          split at hexc2 <;>
            exact Option.noConfusion (show (none : Option Uncaught) = some exc from hexc2)
        | fault c m =>
          exact Option.noConfusion (show (none : Option Uncaught) = some exc from hexc2)
        | protocolError c m =>
          exact Option.noConfusion (show (none : Option Uncaught) = some exc from hexc2)
        | connectionError m =>
          exact Option.noConfusion (show (none : Option Uncaught) = some exc from hexc2)
        | timeout m =>
          have h2 : some (Uncaught.timeoutExc m) = some exc := hexc2
          injection h2 with h3
          exact ⟨m, rfl, h3.symm⟩
  have never : ∀ (s' : String) (read' : SensorReadOutcome) (ts' : ℚ) (rpc' : RpcOutcome),
      (∀ m, rpc' ≠ RpcOutcome.timeout m) →
      (read_and_record_temperature low high d s' read' ts' rpc').2 = none := by
    intro s' read' ts' rpc' hnt
    cases hres : (read_and_record_temperature low high d s' read' ts' rpc').2 with
    | none => rfl
    | some exc =>
      obtain ⟨m, hm, -⟩ := key s' read' ts' rpc' exc hres
      exact absurd hm (hnt m)
  refine ⟨?_, ?_, ?_, key s read ts rpc, ?_⟩
  · intro c m hm
    exact never s read ts rpc (by intro m' hcontr; rw [hm] at hcontr; cases hcontr)
  · intro c m hm
    exact never s read ts rpc (by intro m' hcontr; rw [hm] at hcontr; cases hcontr)
  · intro m hm
    exact never s read ts rpc (by intro m' hcontr; rw [hm] at hcontr; cases hcontr)
  · intro hall
    induction xs with
    | nil => rfl
    | cons e rest ih =>
      have he : (read_and_record_temperature low high d e.sensor_id e.read e.ts e.rpc).2
          = none :=
        never e.sensor_id e.read e.ts e.rpc (hall e (List.mem_cons_self e rest))
      unfold pollCycle
      have hrest := ih (fun e' he' m => hall e' (List.mem_cons_of_mem e he') m)
      cases hrr : read_and_record_temperature low high d e.sensor_id e.read e.ts e.rpc with
      | mk evs exc =>
        cases exc with
        | some exc' => rw [hrr] at he; cases he
        | none => simpa using hrest

/-- Witness for C2 (amended) at concrete inputs: a connection-refused error is
caught (no exception escapes), and a one-sensor cycle whose RPC call fails with
`ConnectionError` completes with no escaping exception. -/
theorem transport_failure_handling_witness :
    (read_and_record_temperature none none "dev" "s1" (SensorReadOutcome.ok 20) 1000
      (RpcOutcome.connectionError "Connection refused")).2 = none ∧
    (pollCycle none none "dev"
      [⟨"s1", SensorReadOutcome.ok 20, 1000,
        RpcOutcome.connectionError "Connection refused"⟩]).2 = none := by
  have h := transport_failure_handling none none "dev" "s1" (SensorReadOutcome.ok 20)
    1000 (RpcOutcome.connectionError "Connection refused")
    [⟨"s1", SensorReadOutcome.ok 20, 1000, RpcOutcome.connectionError "Connection refused"⟩]
  refine ⟨h.2.2.1 "Connection refused" rfl, h.2.2.2.2 ?_⟩
  intro e he m
  rw [List.mem_singleton] at he
  subst he
  intro hcontr
  exact RpcOutcome.noConfusion hcontr

/-- Membership of a `transmit` event in the result of a single
`_read_and_record_temperature` forces: the event's sensor and timestamp are that
call's, the sensor read succeeded with the transmitted value, and the value
passed the sanity check. -/
theorem transmit_mem_rr (low high : Option ℚ) (d s0 : String)
    (read : SensorReadOutcome) (ts0 : ℚ) (rpc : RpcOutcome) (s : String) (ts t : ℚ) :
    ClientEvent.transmit s ts t ∈
      (read_and_record_temperature low high d s0 read ts0 rpc).1 →
    s = s0 ∧ ts = ts0 ∧ read = SensorReadOutcome.ok t ∧ saneReading low high t := by
  intro hmem
  cases read with
  | sensorError m =>
    rw [rr_sensorError] at hmem
    simp [debugEvent] at hmem
  | ok t' =>
    rw [rr_ok] at hmem
    cases hcheck : check_temperature_sanity low high s0 t' with
    | error m =>
      rw [hcheck] at hmem
      simp [debugEvent] at hmem
    | ok u =>
      cases u
      rw [hcheck] at hmem
      have hmem2 : ClientEvent.transmit s ts t ∈
          (rpcStep (debugEvent d s0 t' ts0) s0 ts0 t' rpc).1 := hmem
      have hsane : saneReading low high t' :=
        (check_sanity_ok_iff low high s0 t').mp hcheck
      cases rpc with
      | status code =>
        rw [rpcStep_status] at hmem2
        split at hmem2 <;> simp [debugEvent] at hmem2 <;>
          obtain ⟨hs, hts, ht⟩ := hmem2 <;> subst hs <;> subst hts <;> subst ht <;>
          exact ⟨rfl, rfl, rfl, hsane⟩
      | fault c m =>
        simp [rpcStep, debugEvent] at hmem2
        obtain ⟨hs, hts, ht⟩ := hmem2
        subst hs; subst hts; subst ht
        exact ⟨rfl, rfl, rfl, hsane⟩
      | protocolError c m =>
        simp [rpcStep, debugEvent] at hmem2
        obtain ⟨hs, hts, ht⟩ := hmem2
        subst hs; subst hts; subst ht
        exact ⟨rfl, rfl, rfl, hsane⟩
      | connectionError m =>
        simp [rpcStep, debugEvent] at hmem2
        obtain ⟨hs, hts, ht⟩ := hmem2
        subst hs; subst hts; subst ht
        exact ⟨rfl, rfl, rfl, hsane⟩
      | timeout m =>
        simp [rpcStep, debugEvent] at hmem2
        obtain ⟨hs, hts, ht⟩ := hmem2
        subst hs; subst hts; subst ht
        exact ⟨rfl, rfl, rfl, hsane⟩

/-- C8: in any poll cycle, a `transmit` (RPC invocation) happens for a reading
only if the sensor read succeeded with that value and the value passed the sanity
check — a reading that fails the sensor read or the sanity check is never
transmitted. -/
theorem transmit_only_if_sane (low high : Option ℚ) (d : String)
    (xs : List SensorCycleEnv) (s : String) (ts t : ℚ) :
    ClientEvent.transmit s ts t ∈ (pollCycle low high d xs).1 →
      saneReading low high t ∧
      ∃ e, e ∈ xs ∧ e.sensor_id = s ∧ e.read = SensorReadOutcome.ok t := by
  induction xs with
  | nil => intro hmem; simp [pollCycle] at hmem
  | cons e rest ih =>
    intro hmem
    unfold pollCycle at hmem
    cases hrr : read_and_record_temperature low high d e.sensor_id e.read e.ts e.rpc with
    | mk evs exc =>
      rw [hrr] at hmem
      cases exc with
      | some exc' =>
        simp only at hmem
        have := transmit_mem_rr low high d e.sensor_id e.read e.ts e.rpc s ts t
          (by rw [hrr]; exact hmem)
        obtain ⟨hs, -, hread, hsane⟩ := this
        exact ⟨hsane, e, List.mem_cons_self e rest, hs.symm, hread⟩
      | none =>
        simp only [List.mem_append] at hmem
        rcases hmem with hmem | hmem
        · have := transmit_mem_rr low high d e.sensor_id e.read e.ts e.rpc s ts t
            (by rw [hrr]; exact hmem)
          obtain ⟨hs, -, hread, hsane⟩ := this
          exact ⟨hsane, e, List.mem_cons_self e rest, hs.symm, hread⟩
        · obtain ⟨hsane, e', he', hs', hread'⟩ := ih hmem
          exact ⟨hsane, e', List.mem_cons_of_mem e he', hs', hread'⟩

/-- Witness for C8 at a concrete cycle: the transmitted reading `20` of sensor
"s1" was read successfully and is within the bounds `[0, 100]`. -/
theorem transmit_only_if_sane_witness :
    saneReading (some 0) (some 100) 20 ∧
    ∃ e, e ∈ [(⟨"s1", SensorReadOutcome.ok 20, 1000, RpcOutcome.status 0⟩ : SensorCycleEnv)] ∧
      e.sensor_id = "s1" ∧ e.read = SensorReadOutcome.ok 20 := by
  exact transmit_only_if_sane (some 0) (some 100) "dev"
    [⟨"s1", SensorReadOutcome.ok 20, 1000, RpcOutcome.status 0⟩] "s1" 1000 20 (by decide)

/-- C9: failure isolation inside one poll cycle — if sensor A's read raises
`W1ThermSensorError`, that exception is caught inside A's
`_read_and_record_temperature`, so sensor B (later in the same cycle) is still
processed, and its valid reading is transmitted; no exception escapes the cycle. -/
theorem sensor_failure_isolation (low high : Option ℚ) (d sA sB mA : String)
    (rpcA : RpcOutcome) (tsA tsB tB : ℚ) (hB : saneReading low high tB) :
    ClientEvent.transmit sB tsB tB ∈
      (pollCycle low high d
        [⟨sA, SensorReadOutcome.sensorError mA, tsA, rpcA⟩,
         ⟨sB, SensorReadOutcome.ok tB, tsB, RpcOutcome.status 0⟩]).1 ∧
    (pollCycle low high d
      [⟨sA, SensorReadOutcome.sensorError mA, tsA, rpcA⟩,
       ⟨sB, SensorReadOutcome.ok tB, tsB, RpcOutcome.status 0⟩]).2 = none := by
  have hcheck : check_temperature_sanity low high sB tB = Except.ok () :=
    (check_sanity_ok_iff low high sB tB).mpr hB
  simp [pollCycle, read_and_record_temperature, rpcStep, hcheck]

/-- Witness for C9 at concrete inputs: sensor "a" fails with a sensor error,
sensor "b" reads `21` within bounds `[0, 100]` and is transmitted. -/
theorem sensor_failure_isolation_witness :
    ClientEvent.transmit "b" 1000 21 ∈
      (pollCycle (some 0) (some 100) "dev"
        [⟨"a", SensorReadOutcome.sensorError "Error reading temperature", 999,
          RpcOutcome.status 0⟩,
         ⟨"b", SensorReadOutcome.ok 21, 1000, RpcOutcome.status 0⟩]).1 := by
  exact (sensor_failure_isolation (some 0) (some 100) "dev" "a" "b"
    "Error reading temperature" (RpcOutcome.status 0) 999 1000 21 (by decide)).1

/-- The client state relevant to shutdown: `self._quit` (the spec's "running"
flag is its negation). Set in `__init__` to `False`, set to `True` by `quit`,
read by `run_forever`'s `while not self._quit` check; nothing ever resets it. -/
structure ClientState where
  quitFlag : Bool
deriving DecidableEq

/-- Model of `RemoteTemperatureClient.quit` (source lines 46-48): logs "Received quit
request" and sets `self._quit = True`. Its only state effect is the flag, so it
is idempotent. -/
def quit (st : ClientState) : ClientState :=
  { st with quitFlag := true }

/-- Observable actions of `run_forever`'s loop body: one
`_read_and_record_temperature(sensor)` call (hence at most one RPC call) per
available sensor, then one `time.sleep(self._period)` — tagged with the index of
the loop iteration they belong to. -/
inductive LoopEvent
  | processSensor (cycle : ℕ) (sensor_id : String)
  | sleepPeriod (cycle : ℕ)
deriving DecidableEq

/-- The events of loop iteration `cycle`: process every available sensor, then
sleep for one period. -/
def iterationEvents (cycle : ℕ) (sensors : List String) : List LoopEvent :=
  sensors.map (LoopEvent.processSensor cycle) ++ [LoopEvent.sleepPeriod cycle]

/-- The events of iterations `j, j+1, ..., j+n-1`. -/
def cyclesEvents (sensors : List String) : ℕ → ℕ → List LoopEvent
  | _, 0 => []
  | j, n + 1 => iterationEvents j sensors ++ cyclesEvents sensors (j + 1) n

/-- Model of `RemoteTemperatureClient.run_forever` (source lines 39-44):
`while not self._quit:` process all sensors, sleep one period, re-check.
`quitAtCheck i` is the value of `self._quit` at the i-th evaluation of the loop
condition (the flag is set asynchronously by `quit`, e.g. from a signal handler,
and once set it stays set). `fuel` bounds the number of checks, so that the
embedding is total; `none` means the loop was still running when the fuel ran
out. On `some tr`, `tr` is the full event trace of the loop until it returned. -/
def run_forever (quitAtCheck : ℕ → Bool) (sensors : List String) :
    ℕ → ℕ → Option (List LoopEvent)
  | _, 0 => none
  | i, fuel + 1 =>
    if quitAtCheck i then some []
    else
      match run_forever quitAtCheck sensors (i + 1) fuel with
      | none => none
      | some tr => some (iterationEvents i sensors ++ tr)

theorem cyclesEvents_zero (sensors : List String) (j : ℕ) :
    cyclesEvents sensors j 0 = [] := rfl

theorem cyclesEvents_succ (sensors : List String) (j n : ℕ) :
    cyclesEvents sensors j (n + 1) =
      iterationEvents j sensors ++ cyclesEvents sensors (j + 1) n := rfl

/-- Every processSensor event in `cyclesEvents sensors j n` belongs to a cycle
in `[j, j+n)`. -/
theorem processSensor_cycle_lt (sensors : List String) :
    ∀ n j c s, LoopEvent.processSensor c s ∈ cyclesEvents sensors j n → c < j + n := by
  intro n
  induction n with
  | zero => intro j c s h; simp [cyclesEvents_zero] at h
  | succ n ih =>
    intro j c s h
    rw [cyclesEvents_succ, List.mem_append] at h
    rcases h with h | h
    · unfold iterationEvents at h
      rw [List.mem_append] at h
      rcases h with h | h
      · rw [List.mem_map] at h
        obtain ⟨a, -, ha⟩ := h
        injection ha with hc hs2
        omega
      · simp at h
    · have := ih (j + 1) c s h
      omega

/-- The number of `sleepPeriod` events in a trace. -/
def sleepCount (tr : List LoopEvent) : ℕ :=
  (tr.filter fun e =>
    match e with
    | LoopEvent.sleepPeriod _ => true
    | _ => false).length

theorem sleepCount_append (a b : List LoopEvent) :
    sleepCount (a ++ b) = sleepCount a + sleepCount b := by
  unfold sleepCount
  rw [List.filter_append, List.length_append]

theorem sleepCount_iteration (j : ℕ) (sensors : List String) :
    sleepCount (iterationEvents j sensors) = 1 := by
  unfold iterationEvents
  rw [sleepCount_append]
  have h1 : sleepCount (sensors.map (LoopEvent.processSensor j)) = 0 := by
    unfold sleepCount
    rw [List.filter_map]
    simp [Function.comp]
  have h2 : sleepCount [LoopEvent.sleepPeriod j] = 1 := rfl
  rw [h1, h2]

/-- Exactly `n` sleeps occur in `cyclesEvents sensors j n`, one per iteration. -/
theorem sleepCount_cycles (sensors : List String) :
    ∀ n j, sleepCount (cyclesEvents sensors j n) = n := by
  intro n
  induction n with
  | zero => intro j; rfl
  | succ n ih =>
    intro j
    rw [cyclesEvents_succ, sleepCount_append, sleepCount_iteration, ih]
    omega

/-- If the quit flag is false at checks `0..k-1` and true at check `k`, the loop
runs exactly the iterations it had started, then returns. -/
theorem run_forever_trace (q : ℕ → Bool) (sensors : List String) (k : ℕ)
    (hbefore : ∀ i, i < k → q i = false) (hk : q k = true) :
    ∀ fuel j, j ≤ k → k - j < fuel →
      run_forever q sensors j fuel = some (cyclesEvents sensors j (k - j)) := by
  intro fuel
  induction fuel with
  | zero => intro j _ hcontr; omega
  | succ fuel ih =>
    intro j hj hfuel
    by_cases hjk : j = k
    · subst hjk
      unfold run_forever
      rw [hk]
      simp [cyclesEvents_zero]
    · have hjlt : j < k := lt_of_le_of_ne hj hjk
      have hqj : q j = false := hbefore j hjlt
      unfold run_forever
      rw [hqj]
      have hrec := ih (j + 1) (by omega) (by omega)
      simp only [Bool.false_eq_true, if_false]
      rw [hrec]
      have : k - j = (k - (j + 1)) + 1 := by omega
      rw [this, cyclesEvents_succ]

/-- C7: `quit` only sets the flag and is idempotent; once the flag is set — it is
false at the first `k` evaluations of the `while not self._quit` condition and
true at check `k`, i.e. `quit` was invoked during iteration `k-1` (or before the
loop for `k = 0`) — `run_forever` finishes exactly the in-flight iteration,
including its single period-long sleep, returns at the next loop boundary, and
the trace contains no sensor processing (hence no RPC call) of any cycle ≥ `k`. -/
theorem shutdown_within_one_cycle (q : ℕ → Bool) (sensors : List String) (k fuel : ℕ)
    (hbefore : ∀ i, i < k → q i = false) (hk : q k = true) (hfuel : k < fuel) :
    run_forever q sensors 0 fuel = some (cyclesEvents sensors 0 k) ∧
    (∀ c s, LoopEvent.processSensor c s ∈ cyclesEvents sensors 0 k → c < k) ∧
    sleepCount (cyclesEvents sensors 0 k) = k ∧
    (∀ st : ClientState, quit (quit st) = quit st ∧ (quit st).quitFlag = true) := by
  refine ⟨?_, ?_, sleepCount_cycles sensors k 0, fun st => ⟨rfl, rfl⟩⟩
  · have := run_forever_trace q sensors k hbefore hk fuel 0 (Nat.zero_le k) (by omega)
    simpa using this
  · intro c s h
    have := processSensor_cycle_lt sensors k 0 c s h
    omega

/-- Witness for C7 at concrete inputs: the flag becomes observable at check 2;
with two sensors the loop returns the two started iterations, with two sleeps
and all sensor processing in cycles 0 and 1. -/
theorem shutdown_within_one_cycle_witness :
    run_forever (fun i => decide (2 ≤ i)) ["s1", "s2"] 0 4 =
      some (cyclesEvents ["s1", "s2"] 0 2) ∧
    sleepCount (cyclesEvents ["s1", "s2"] 0 2) = 2 := by
  have h := shutdown_within_one_cycle (fun i => decide (2 ≤ i)) ["s1", "s2"] 2 4
    (by decide) (by decide) (by omega)
  exact ⟨h.1, h.2.2.1⟩

/-- One record of the `temperatures` table: the four fields of the RPC contract. -/
structure Row where
  device_id : String
  sensor_id : String
  time : ℚ
  temperature : ℚ
deriving DecidableEq

/-- The durable content of the sqlite database file: its tables (name and column
list — sqlite table names are unique, so a name occurs at most once in a real
file) and the committed rows of `temperatures`. -/
structure Store where
  tables : List (String × List String)
  committed : List Row
deriving DecidableEq

/-- A live sqlite connection: the file state plus the rows INSERTed in the
connection's currently open transaction but not yet committed. -/
structure Conn where
  store : Store
  pending : List Row
deriving DecidableEq

/-- The column list of `CREATE TABLE IF NOT EXISTS temperatures (device_id,
sensor_id, time, temperature)` (source lines 22-25; the columns are untyped). -/
def temperatureColumns : List String :=
  ["device_id", "sensor_id", "time", "temperature"]

/-- Model of `DBClient.__init__` (source lines 19-28): connect to the file (`mode=rwc`
creates it if absent), execute `CREATE TABLE IF NOT EXISTS temperatures (...)`,
and commit. `IF NOT EXISTS` succeeds without error whether or not the table is
already there, and never drops or re-creates an existing table; committed rows
are untouched and the new connection starts with an empty transaction. -/
def DBClient.init (s : Store) : Conn :=
  { store :=
      { s with
        tables :=
          if s.tables.any fun tb => tb.1 == "temperatures" then s.tables
          else s.tables ++ [("temperatures", temperatureColumns)] },
    pending := [] }

/-- Outcome the sqlite layer produces for one statement (`execute` or `commit`):
normal completion, or a raised `sqlite3.Error` with a message. -/
inductive StepOutcome
  | success
  | sqlError (msg : String)
deriving DecidableEq

/-- Environment of one `DBClient.write` call: the sqlite outcome of its
`execute` step and of its `commit` step. -/
structure WriteEnv where
  execOutcome : StepOutcome
  commitOutcome : StepOutcome
deriving DecidableEq

/-- Model of `DBClient.write` (source lines 30-43): `execute` the INSERT, then `commit`;
any `sqlite3.Error` is re-raised as `DBError(str(e))`, modelled as `some msg` in
the second component. There is no rollback in the `except` path. A successful
`execute` adds the row to the connection's open transaction; `commit` makes the
whole open transaction durable. If `commit` itself raises a retryable
`sqlite3.Error` (e.g. `SQLITE_BUSY`, "database is locked"), SQLite leaves the
transaction open, so the INSERTed row stays pending on the connection. -/
def DBClient.write (c : Conn) (r : Row) (env : WriteEnv) : Conn × Option String :=
  match env.execOutcome with
  | StepOutcome.sqlError m => (c, some m)
  | StepOutcome.success =>
    match env.commitOutcome with
    | StepOutcome.success =>
      ({ store := { c.store with committed := c.store.committed ++ (c.pending ++ [r]) },
         pending := [] }, none)
    | StepOutcome.sqlError m => ({ c with pending := c.pending ++ [r] }, some m)

/-- Model of `TemperatureRecorder.record_temperature` (source lines 51-68): log receipt,
delegate to `DBClient.write`, catch `DBError` (the only exception `write`
raises), log it and return `1`; otherwise return `0`. The function is total —
no exception can escape to the XML-RPC layer. -/
def record_temperature (c : Conn) (device_id sensor_id : String)
    (read_time temperature : ℚ) (env : WriteEnv) : Conn × ℤ :=
  match DBClient.write c (Row.mk device_id sensor_id read_time temperature) env with
  | (c1, some _) => (c1, 1)
  | (c1, none) => (c1, 0)

/-- C3: `record_temperature` returns exactly `0` when the storage append
succeeds and exactly `1` when it fails with a `DBError`; being a total function
into an integer (the `except DBError` clause catches the only exception
`DBClient.write` raises), the storage error is never raised back through the
transport — callers only ever observe `0` or `1`. -/
theorem record_temperature_status (c : Conn) (d s : String) (tm tp : ℚ)
    (env : WriteEnv) :
    ((record_temperature c d s tm tp env).2 = 0 ∨
      (record_temperature c d s tm tp env).2 = 1) ∧
    ((record_temperature c d s tm tp env).2 = 0 ↔
      (DBClient.write c (Row.mk d s tm tp) env).2 = none) ∧
    (record_temperature c d s tm tp env).1 =
      (DBClient.write c (Row.mk d s tm tp) env).1 := by
  unfold record_temperature
  cases hw : DBClient.write c (Row.mk d s tm tp) env with
  | mk c1 err =>
    cases err with
    | none => simp
    | some m => simp

/-- The connection and outcome after `record_temperature` on a fresh store when
the INSERT succeeds but the COMMIT fails (e.g. "database is locked"). -/
def failedCommitResult : Conn × ℤ :=
  record_temperature
    (Conn.mk (Store.mk [("temperatures", temperatureColumns)] []) [])
    "dev" "s1" 1 21
    (WriteEnv.mk StepOutcome.success (StepOutcome.sqlError "database is locked"))

/-- The connection and outcome after a subsequent, fully successful
`record_temperature` on the same connection. -/
def laterAppendResult : Conn × ℤ :=
  record_temperature failedCommitResult.1 "dev" "s2" 2 22
    (WriteEnv.mk StepOutcome.success StepOutcome.success)

/-- C4 counterexample: a write that fails at the COMMIT step returns `1` and
leaves the committed row count unchanged at the time of the call — but the
INSERTed row stays pending in the connection's open transaction (the `except`
path has no rollback), and the next successful append's commit also commits it:
after one failed and one successful append the store holds TWO rows, the failed
write's row among them, refuting "the failed write leaves no partially committed
row, including with respect to later successful appends on the same connection". -/
theorem failed_commit_resurfaces_later :
    failedCommitResult.2 = 1 ∧
    failedCommitResult.1.store.committed = [] ∧
    laterAppendResult.2 = 0 ∧
    laterAppendResult.1.store.committed =
      [Row.mk "dev" "s1" 1 21, Row.mk "dev" "s2" 2 22] ∧
    Row.mk "dev" "s1" 1 21 ∈ laterAppendResult.1.store.committed ∧
    laterAppendResult.1.store.committed.length ≠ 1 := by
  refine ⟨rfl, rfl, rfl, by decide, by decide, by decide⟩

/-- C4 (amended): if a storage write fails during `record_temperature`, the call
returns `1` and the committed row count is unchanged at the time of the call; a
failure at the INSERT step leaves the connection entirely unchanged, but a
failure at the COMMIT step leaves the row pending in the connection's open
transaction, where a later successful append's commit will also commit it. -/
theorem failed_write_immediate_state (c : Conn) (d s : String) (tm tp : ℚ)
    (env : WriteEnv)
    (hfail : (DBClient.write c (Row.mk d s tm tp) env).2.isSome = true) :
    (record_temperature c d s tm tp env).2 = 1 ∧
    (record_temperature c d s tm tp env).1.store.committed = c.store.committed ∧
    (∀ m, env.execOutcome = StepOutcome.sqlError m →
      (record_temperature c d s tm tp env).1 = c) ∧
    (env.execOutcome = StepOutcome.success →
      (record_temperature c d s tm tp env).1.pending =
        c.pending ++ [Row.mk d s tm tp]) := by
  cases env with
  | mk execO commitO =>
    cases execO with
    | sqlError m =>
      refine ⟨rfl, rfl, fun m' _ => rfl, ?_⟩
      intro hcontr
      exact StepOutcome.noConfusion hcontr
    | success =>
      cases commitO with
      | success =>
        exact absurd (show (false : Bool) = true from hfail) (by simp)
      | sqlError m =>
        refine ⟨rfl, rfl, ?_, fun _ => rfl⟩
        intro m' hcontr
        exact StepOutcome.noConfusion hcontr

/-- Witness for C4 (amended) at a concrete input: the commit-failure call of the
counterexample returns `1` with committed rows unchanged and the row pending. -/
theorem failed_write_immediate_state_witness :
    failedCommitResult.2 = 1 ∧
    failedCommitResult.1.store.committed = [] ∧
    failedCommitResult.1.pending = [] ++ [Row.mk "dev" "s1" 1 21] := by
  have h := failed_write_immediate_state
    (Conn.mk (Store.mk [("temperatures", temperatureColumns)] []) [])
    "dev" "s1" 1 21
    (WriteEnv.mk StepOutcome.success (StepOutcome.sqlError "database is locked"))
    (by decide)
  exact ⟨h.1, h.2.1, h.2.2.2 rfl⟩

/-- Iterated fully-successful `DBClient.write` calls, one per record. -/
def appendRun (c : Conn) : List Row → Conn
  | [] => c
  | r :: rest =>
    appendRun (DBClient.write c r (WriteEnv.mk StepOutcome.success StepOutcome.success)).1 rest

theorem appendRun_nil (c : Conn) : appendRun c [] = c := rfl

theorem appendRun_cons (c : Conn) (r : Row) (rest : List Row) :
    appendRun c (r :: rest) =
      appendRun
        (DBClient.write c r (WriteEnv.mk StepOutcome.success StepOutcome.success)).1
        rest := rfl

theorem appendRun_committed (rs : List Row) :
    ∀ c : Conn, c.pending = [] →
      (appendRun c rs).store.committed = c.store.committed ++ rs ∧
      (appendRun c rs).pending = [] := by
  induction rs with
  | nil => intro c hc; rw [appendRun_nil]; simp [hc]
  | cons r rest ih =>
    intro c hc
    rw [appendRun_cons]
    have hwc : (DBClient.write c r
        (WriteEnv.mk StepOutcome.success StepOutcome.success)).1 =
        Conn.mk (Store.mk c.store.tables (c.store.committed ++ [r])) [] := by
      simp [DBClient.write, hc]
    rw [hwc]
    have h := ih (Conn.mk (Store.mk c.store.tables (c.store.committed ++ [r])) []) rfl
    refine ⟨?_, h.2⟩
    rw [h.1]
    simp

/-- C5: starting from a freshly opened store over an empty file, `n` fully
successful appends leave the `temperatures` table with exactly those `n` rows,
field for field, in insertion order; and no operation of the system ever updates
or deletes a committed row — `DBClient.write` only ever extends the committed
rows and `DBClient.__init__` leaves them untouched. -/
theorem append_only_log (rs : List Row) :
    (appendRun (DBClient.init (Store.mk [] [])) rs).store.committed = rs ∧
    (∀ (c : Conn) (r : Row) (env : WriteEnv), ∃ tail,
      (DBClient.write c r env).1.store.committed = c.store.committed ++ tail) ∧
    (∀ s : Store, (DBClient.init s).store.committed = s.committed) := by
  refine ⟨?_, ?_, fun s => rfl⟩
  · have h := appendRun_committed rs (DBClient.init (Store.mk [] [])) rfl
    rw [h.1]
    rfl
  · intro c r env
    unfold DBClient.write
    cases env.execOutcome with
    | sqlError m => exact ⟨[], by simp⟩
    | success =>
      cases env.commitOutcome with
      | success => exact ⟨c.pending ++ [r], rfl⟩
      | sqlError m => exact ⟨[], by simp⟩

/-- The number of tables named `temperatures` in the database file. -/
def countTemperatureTables (s : Store) : ℕ :=
  (s.tables.filter fun tb => tb.1 == "temperatures").length

theorem any_temperatures_iff (s : Store) :
    (s.tables.any fun tb => tb.1 == "temperatures") = true ↔
      0 < countTemperatureTables s := by
  unfold countTemperatureTables
  rw [List.length_pos]
  constructor
  · intro h
    rw [List.any_eq_true] at h
    obtain ⟨a, ha, hpa⟩ := h
    intro hnil
    rw [List.filter_eq_nil_iff] at hnil
    exact hnil a ha hpa
  · intro h
    rw [List.any_eq_true]
    by_contra hno
    apply h
    rw [List.filter_eq_nil_iff]
    intro a ha
    simp only [Bool.not_eq_true]
    rcases Bool.eq_false_or_eq_true (a.1 == "temperatures") with hb | hb
    · exact (hno ⟨a, ha, hb⟩).elim
    · exact hb

/-- C6: opening the storage twice against the same path never errors
(`CREATE TABLE IF NOT EXISTS` succeeds whether or not the table exists — the
embedding of `DBClient.__init__` is a total function) and never duplicates or
drops the table: a second open is the identity on the store produced by the
first, so after it the file holds exactly one `temperatures` table, with the
same columns and the same rows as after the first open; on a fresh file the
single table has the four columns `device_id, sensor_id, time, temperature`.
(The hypothesis `countTemperatureTables s ≤ 1` is sqlite's invariant that a
table name occurs at most once in a file.) -/
theorem open_twice_idempotent (s : Store)
    (hwf : countTemperatureTables s ≤ 1) :
    DBClient.init ((DBClient.init s).store) = DBClient.init s ∧
    countTemperatureTables (DBClient.init ((DBClient.init s).store)).store = 1 ∧
    (DBClient.init ((DBClient.init s).store)).store.committed =
      (DBClient.init s).store.committed ∧
    (DBClient.init (Store.mk [] [])).store.tables =
      [("temperatures", temperatureColumns)] := by
  have htab : (DBClient.init s).store.tables =
      (if s.tables.any fun tb => tb.1 == "temperatures" then s.tables
       else s.tables ++ [("temperatures", temperatureColumns)]) := rfl
  have hone : countTemperatureTables (DBClient.init s).store = 1 := by
    unfold countTemperatureTables
    rw [htab]
    by_cases h : (s.tables.any fun tb => tb.1 == "temperatures") = true
    · rw [if_pos h]
      have hpos := (any_temperatures_iff s).mp h
      unfold countTemperatureTables at hpos hwf
      omega
    · rw [if_neg h]
      have hzero : countTemperatureTables s = 0 := by
        by_contra hnz
        exact h ((any_temperatures_iff s).mpr (by omega))
      unfold countTemperatureTables at hzero
      rw [List.filter_append, List.length_append, hzero]
      decide
  have hsame : DBClient.init ((DBClient.init s).store) = DBClient.init s := by
    have hany : ((DBClient.init s).store.tables.any
        fun tb => tb.1 == "temperatures") = true := by
      refine (any_temperatures_iff (DBClient.init s).store).mpr ?_
      rw [hone]
      omega
    show Conn.mk
      { (DBClient.init s).store with
        tables :=
          if (DBClient.init s).store.tables.any fun tb => tb.1 == "temperatures"
          then (DBClient.init s).store.tables
          else (DBClient.init s).store.tables
            ++ [("temperatures", temperatureColumns)] } []
      = DBClient.init s
    rw [if_pos hany]
    rfl
  refine ⟨hsame, ?_, by rw [hsame], rfl⟩
  rw [show (DBClient.init ((DBClient.init s).store)).store = (DBClient.init s).store
    from congrArg Conn.store hsame]
  exact hone

/-- Witness for C6 at a concrete input: a fresh (empty) file satisfies the
sqlite invariant, and two opens produce one `temperatures` table with the four
columns and no rows. -/
theorem open_twice_idempotent_witness :
    DBClient.init ((DBClient.init (Store.mk [] [])).store) =
      DBClient.init (Store.mk [] []) ∧
    countTemperatureTables
      (DBClient.init ((DBClient.init (Store.mk [] [])).store)).store = 1 := by
  have h := open_twice_idempotent (Store.mk [] []) (by decide)
  exact ⟨h.1, h.2.1⟩

end RemoteTemperature
